import Mathlib

/-!
Verification development for the Telegram-Archive database-adapter layer:
a shallow embedding of src/db_adapters (models.py, schema.py, factory.py,
adapter.py) and src/migrate_to_postgres.py, together with theorems about
the properties the design document states.
-/

namespace TelegramArchive

/-- Scalar value held in a row dictionary read from the legacy SQLite store.
`vNull` embeds Python None, `vStr` a str, `vInt` an int, `vBool` a bool and
`vDt` a datetime value carrying its ISO text representation. -/
inductive Value where
  | vNull
  | vStr (s : String)
  | vInt (n : Int)
  | vBool (b : Bool)
  | vDt (iso : String)
deriving DecidableEq

/-- A row dictionary: association list from column name to value, as produced
by the sqlite3 cursor in migrate_to_postgres.py. -/
abbrev Row := List (String × Value)

/-- Dictionary lookup row[k]; `vNull` when the key is absent (in the migration
script every looked-up column is present in the SELECT * result). -/
def get_val : Row → String → Value
  | [], _ => Value.vNull
  | p :: ps, k => if p.1 = k then p.2 else get_val ps k

/-- Python truthiness of a `Value` (None, the empty string, 0 and False are
falsy). -/
def truthy : Value → Bool
  | Value.vNull => false
  | Value.vStr s => !s.isEmpty
  | Value.vInt n => decide (n ≠ 0)
  | Value.vBool b => b
  | Value.vDt _ => true

/-- Embeds DataMigrator._convert_dict (migrate_to_postgres.py lines 232-240):
every value equal to the empty string is replaced by None, all other values
are kept. -/
def convert_dict (r : Row) : Row :=
  r.map (fun p => if p.2 = Value.vStr "" then (p.1, Value.vNull) else p)

/-- Embeds the per-field datetime fix-up in DataMigrator._get_messages
(lines 158-163): when the named field is present with a truthy string value,
the string is parsed with datetime.fromisoformat (represented by tagging the
text as a `vDt`); any other value is left alone. -/
def fix_date (field : String) (r : Row) : Row :=
  r.map (fun p =>
    if p.1 = field then
      match p.2 with
      | Value.vStr s => if s.isEmpty then p else (p.1, Value.vDt s)
      | _ => p
    else p)

/-- The full per-message conversion applied in _get_messages: _convert_dict
followed by the date and edit_date fix-ups. -/
def convert_message (r : Row) : Row :=
  fix_date "edit_date" (fix_date "date" (convert_dict r))

/-- Model of the Python str.lower() call applied to the discriminator in
factory.py line 36 (per-character basic-latin lowercasing). -/
def str_lower (s : String) : String :=
  String.mk (s.data.map Char.toLower)

/-- Configuration object as consumed by create_database_adapter. Fields read
through getattr with a default are optional; `none` stands for an absent
attribute (the Config class itself lives outside the adapter layer). -/
structure Config where
  db_type : Option String
  database_path : String
  database_timeout : Int
  postgres_host : Option String
  postgres_port : Option Int
  postgres_db : Option String
  postgres_user : Option String
  postgres_password : Option String
  postgres_pool_size : Option Int
deriving DecidableEq

/-- The adapter instance returned by the factory, carrying the construction
arguments passed to SQLiteAdapter or PostgreSQLAdapter. -/
inductive AdapterInstance where
  | sqliteAdapter (database_path : String) (timeout : Int)
  | postgresAdapter (host : String) (port : Int) (database user password : String)
      (pool_size : Int)
deriving DecidableEq

/-- The ValueError message raised for db_type sqlite (factory.py lines 43-46,
quotes around the literals elided). -/
def sqlite_redirect_message : String :=
  "For db_type sqlite, use the original src.database.Database class. " ++
  "Set db_type sqlite-alchemy to use the SQLAlchemy SQLite adapter."

/-- Embeds create_database_adapter (factory.py lines 17-73): lowercase the
discriminator (default sqlite when the attribute is absent), redirect plain
sqlite to the original implementation, construct the SQLite or PostgreSQL
adapter, require a non-empty password for postgres-alchemy before
construction, and reject every other discriminator naming the value. -/
def create_database_adapter (cfg : Config) : Except String AdapterInstance :=
  let db_type := str_lower (cfg.db_type.getD "sqlite")
  if db_type = "sqlite" then
    Except.error sqlite_redirect_message
  else if db_type = "sqlite-alchemy" then
    Except.ok (AdapterInstance.sqliteAdapter cfg.database_path cfg.database_timeout)
  else if db_type = "postgres-alchemy" then
    let host := cfg.postgres_host.getD "localhost"
    let port := cfg.postgres_port.getD 5432
    let database := cfg.postgres_db.getD "telegram_backup"
    let user := cfg.postgres_user.getD "postgres"
    let password := cfg.postgres_password.getD ""
    let pool_size := cfg.postgres_pool_size.getD 5
    if password = "" then
      Except.error "PostgreSQL password is required when using postgres-alchemy"
    else
      Except.ok (AdapterInstance.postgresAdapter host port database user password pool_size)
  else
    Except.error ("Unsupported database type: " ++ db_type)

/-- Python truthiness of the process-wide schema name held in schema.py
(None and the empty string are falsy, so the dictionary entry is omitted). -/
def schema_truthy : Option String → Bool
  | none => false
  | some s => !s.isEmpty

/-- Namespace of the chats table (models.py lines 26-49): Chat.__table_args__
holds only the two Index entries and no schema dictionary, so the table is
created in the MetaData default namespace whatever get_schema_name returned;
the bare class attribute named schema is not consulted by the declarative
machinery. -/
def chats_table_schema (_schema_name : Option String) : Option String :=
  none

/-- Namespace of the messages table (models.py lines 85-95): the last
__table_args__ entry is the schema dictionary when the configured name is
truthy, otherwise an empty dictionary. -/
def messages_table_schema (schema_name : Option String) : Option String :=
  if schema_truthy schema_name then schema_name else none

/-- Namespace of the users table (models.py lines 102-108), same pattern as
messages. -/
def users_table_schema (schema_name : Option String) : Option String :=
  if schema_truthy schema_name then schema_name else none

/-- Namespace of the media table (models.py lines 144-150), same pattern as
messages. -/
def media_table_schema (schema_name : Option String) : Option String :=
  if schema_truthy schema_name then schema_name else none

/-- Namespace of the reactions table (models.py lines 168-174), same pattern
as messages. -/
def reactions_table_schema (schema_name : Option String) : Option String :=
  if schema_truthy schema_name then schema_name else none

/-- Namespace of the sync_status table (models.py lines 181-186), same
pattern as messages. -/
def sync_status_table_schema (schema_name : Option String) : Option String :=
  if schema_truthy schema_name then schema_name else none

/-- Namespace of the metadata table (models.py lines 201-206), same pattern
as messages. -/
def metadata_table_schema (schema_name : Option String) : Option String :=
  if schema_truthy schema_name then schema_name else none

/-- The fixed message page size used by DataMigrator._get_messages
(migrate_to_postgres.py line 148). -/
def batch_size : Nat := 1000

/-- Modelled from the spec: the legacy single-backend store (src/database.py,
outside the adapter layer and not in the snapshot) read by the migrator.
Tables are held as row lists; get_all_chats with include_empty gives
`chats_all`, the default listing gives `chats_default`; `messages_of` maps a
chat id value to that chat in chronological order. Each fail flag injects a
raised exception for reads touching that table. -/
structure SQLiteDB where
  chats_all : List Row
  chats_default : List Row
  messages_of : Value → List Row
  users : List Row
  media : List Row
  reactions : List Row
  sync_rows : List Row
  metadata_pairs : List (String × String)
  fail_chats : Bool
  fail_messages : Bool
  fail_users : Bool
  fail_media : Bool
  fail_reactions : Bool
  fail_sync : Bool
  fail_metadata : Bool

/-- Modelled from the spec: the legacy get_messages(chat_id, limit, offset)
paginated read, the limit/offset contract of section 4.1 applied to the chat
message list. -/
def sqlite_get_messages (msgs : List Row) (limit offset : Nat) : List Row :=
  (msgs.drop offset).take limit

/-- Embeds the paging loop body of _get_messages (lines 150-168) for one
chat, without the per-message conversion: request a page of `batch_size`
rows at the current offset, stop on an empty page, keep a short page as the
last one, otherwise append the page and continue at offset + batch_size. -/
def collect_messages (msgs : List Row) (offset : Nat) : List Row :=
  if (sqlite_get_messages msgs batch_size offset).isEmpty then []
  else if (sqlite_get_messages msgs batch_size offset).length < batch_size then
    sqlite_get_messages msgs batch_size offset
  else
    sqlite_get_messages msgs batch_size offset ++ collect_messages msgs (offset + batch_size)
termination_by msgs.length - offset
decreasing_by
  rename_i h1 h2
  simp only [sqlite_get_messages, List.isEmpty_iff, List.length_take,
    List.length_drop, batch_size, not_lt] at h1 h2 ⊢
  omega

/-- The offsets at which the paging loop of _get_messages requests pages for
one chat: the loop always issues the request at the current offset, then
stops when the page came back with fewer than `batch_size` rows (an empty
page included). -/
def page_offsets (msgs : List Row) (offset : Nat) : List Nat :=
  if (sqlite_get_messages msgs batch_size offset).length < batch_size then [offset]
  else offset :: page_offsets msgs (offset + batch_size)
termination_by msgs.length - offset
decreasing_by
  rename_i h1
  simp only [sqlite_get_messages, List.length_take, List.length_drop,
    batch_size, not_lt] at h1 ⊢
  omega

/-- The full message list assembled by _get_messages (lines 138-170): for
every chat of the default chat listing, page through its messages and apply
the per-message conversion. -/
def all_messages (db : SQLiteDB) : List Row :=
  (db.chats_default.map
    (fun c => (collect_messages (db.messages_of (get_val c "id")) 0).map convert_message)).flatten

/-- Embeds _get_chats (lines 133-136): the include_empty chat listing with
_convert_dict applied to every row; a fail flag turns into the raised
exception of the underlying read. -/
def get_chats (db : SQLiteDB) : Except String (List Row) :=
  if db.fail_chats then Except.error "error reading chats from SQLite"
  else Except.ok (db.chats_all.map convert_dict)

/-- Embeds _get_messages (lines 138-170): the chat listing plus the per-chat
paging loop; an unreadable chats or messages table raises. -/
def get_messages_all (db : SQLiteDB) : Except String (List Row) :=
  if db.fail_chats || db.fail_messages then
    Except.error "error reading messages from SQLite"
  else Except.ok (all_messages db)

/-- Embeds _get_users (lines 172-185): SELECT * FROM users with _convert_dict
applied to every row. -/
def get_users (db : SQLiteDB) : Except String (List Row) :=
  if db.fail_users then Except.error "error reading users from SQLite"
  else Except.ok (db.users.map convert_dict)

/-- Embeds _get_media (lines 187-199). -/
def get_media (db : SQLiteDB) : Except String (List Row) :=
  if db.fail_media then Except.error "error reading media from SQLite"
  else Except.ok (db.media.map convert_dict)

/-- Embeds _get_reactions (lines 201-212). -/
def get_reactions (db : SQLiteDB) : Except String (List Row) :=
  if db.fail_reactions then Except.error "error reading reactions from SQLite"
  else Except.ok (db.reactions.map convert_dict)

/-- Embeds _get_sync_status (lines 214-225). -/
def get_sync_status (db : SQLiteDB) : Except String (List Row) :=
  if db.fail_sync then Except.error "error reading sync_status from SQLite"
  else Except.ok (db.sync_rows.map convert_dict)

/-- Embeds _get_metadata (lines 227-230): rows are rebuilt from the key/value
dictionary of the legacy store; note that _convert_dict is not applied. -/
def get_metadata_rows (db : SQLiteDB) : Except String (List Row) :=
  if db.fail_metadata then Except.error "error reading metadata from SQLite"
  else Except.ok (db.metadata_pairs.map
    (fun kv => [("key", Value.vStr kv.1), ("value", Value.vStr kv.2)]))

/-- The read dispatch of migrate_table (lines 73-93): which _get method a
table name selects; `none` is the unknown-table branch (a warning, no read
attempted). -/
def read_table (db : SQLiteDB) (tbl : String) : Option (Except String (List Row)) :=
  if tbl = "chats" then some (get_chats db)
  else if tbl = "messages" then some (get_messages_all db)
  else if tbl = "users" then some (get_users db)
  else if tbl = "media" then some (get_media db)
  else if tbl = "reactions" then some (get_reactions db)
  else if tbl = "sync_status" then some (get_sync_status db)
  else if tbl = "metadata" then some (get_metadata_rows db)
  else none

/-- State of the target PostgreSQL database, reduced to the row keys each
table holds (the aggregate stats call only reports counts). Reactions are
append-only, so only their row count is kept. -/
structure TargetState where
  chat_keys : List Value
  message_keys : List (Value × Value)
  user_keys : List Value
  media_keys : List Value
  reaction_rows : Nat
  sync_keys : List Value
  metadata_keys : List Value
deriving DecidableEq

/-- The empty, freshly initialized target database. -/
def init_target : TargetState :=
  { chat_keys := [], message_keys := [], user_keys := [], media_keys := [],
    reaction_rows := 0, sync_keys := [], metadata_keys := [] }

/-- The write half of the adapter contract of adapter.py, as used by the
migrator; every operation may raise (Except.error), mirroring arbitrary
database failures. -/
structure Adapter where
  upsert_chat : Row → TargetState → Except String TargetState
  insert_messages : List Row → TargetState → Except String TargetState
  upsert_user : Row → TargetState → Except String TargetState
  upsert_media : Row → TargetState → Except String TargetState
  insert_reactions : List Row → TargetState → Except String TargetState
  update_sync_status : Value → Value → Value → TargetState → Except String TargetState
  set_metadata : Value → Value → TargetState → Except String TargetState

/-- Insert-or-update on a key list: an existing key leaves the row count
unchanged (the row is updated in place), a new key adds a row. -/
def upsert_key {K : Type} [DecidableEq K] (ks : List K) (k : K) : List K :=
  if k ∈ ks then ks else k :: ks

/-- Key-level effect of one message batch insert: insert-or-ignore keyed on
the (id, chat_id) pair, row by row in batch order. -/
def upsert_message_batch (ks : List (Value × Value)) (rs : List Row) : List (Value × Value) :=
  rs.foldl (fun acc r => upsert_key acc (get_val r "id", get_val r "chat_id")) ks

/-- Modelled from the spec: the PostgreSQL adapter write operations of
section 4.1 (upsert for chats, users, media; insert-or-ignore batch insert
keyed on (id, chat_id) for messages; strictly additive append for reactions;
keyed upsert for sync status and metadata), restricted to their effect on
row keys. Every operation succeeds. -/
def spec_adapter : Adapter where
  upsert_chat := fun r st =>
    Except.ok { st with chat_keys := upsert_key st.chat_keys (get_val r "id") }
  insert_messages := fun rs st =>
    Except.ok { st with message_keys := upsert_message_batch st.message_keys rs }
  upsert_user := fun r st =>
    Except.ok { st with user_keys := upsert_key st.user_keys (get_val r "id") }
  upsert_media := fun r st =>
    Except.ok { st with media_keys := upsert_key st.media_keys (get_val r "id") }
  insert_reactions := fun rs st =>
    Except.ok { st with reaction_rows := st.reaction_rows + rs.length }
  update_sync_status := fun cid _ _ st =>
    Except.ok { st with sync_keys := upsert_key st.sync_keys cid }
  set_metadata := fun k _ st =>
    Except.ok { st with metadata_keys := upsert_key st.metadata_keys k }

/-- One adapter write issued during the migration, recording its payload. -/
inductive AdapterOp where
  | upsertChat (r : Row)
  | insertMessagesBatch (rs : List Row)
  | upsertUser (r : Row)
  | upsertMedia (r : Row)
  | insertReactions (rs : List Row)
  | updateSyncStatus (chat_id last_message_id message_count : Value)
  | setMetadata (key value : Value)
deriving DecidableEq

/-- The per-row write dispatch of migrate_table (lines 102-118): which
adapter call one row of a table triggers, together with the recorded
operation; messages fall through (pass) and are batch-inserted afterwards. -/
def write_one (ad : Adapter) (tbl : String) (r : Row) (st : TargetState) :
    Option AdapterOp × Except String TargetState :=
  if tbl = "chats" then
    (some (AdapterOp.upsertChat r), ad.upsert_chat r st)
  else if tbl = "messages" then
    (none, Except.ok st)
  else if tbl = "users" then
    (some (AdapterOp.upsertUser r), ad.upsert_user r st)
  else if tbl = "media" then
    (some (AdapterOp.upsertMedia r), ad.upsert_media r st)
  else if tbl = "reactions" then
    (some (AdapterOp.insertReactions [r]), ad.insert_reactions [r] st)
  else if tbl = "sync_status" then
    (some (AdapterOp.updateSyncStatus (get_val r "chat_id")
        (get_val r "last_message_id") (get_val r "message_count")),
     ad.update_sync_status (get_val r "chat_id") (get_val r "last_message_id")
        (get_val r "message_count") st)
  else if tbl = "metadata" then
    (some (AdapterOp.setMetadata (get_val r "key") (get_val r "value")),
     ad.set_metadata (get_val r "key") (get_val r "value") st)
  else (none, Except.ok st)

/-- Result of the write loop of migrate_table: on success the row count and
final state, on a raised write exception the state reached so far; both carry
the adapter operations issued. -/
inductive WriteRes where
  | ok (count : Nat) (st : TargetState) (ops : List AdapterOp)
  | failed (st : TargetState) (ops : List AdapterOp)

/-- The write loop of migrate_table (lines 96-120): process rows in order,
counting each processed row; the first raised exception aborts the loop,
keeping the writes already applied. -/
def write_loop (ad : Adapter) (tbl : String) : List Row → TargetState → WriteRes
  | [], st => WriteRes.ok 0 st []
  | r :: rs, st =>
    match write_one ad tbl r st with
    | (op, Except.error _) => WriteRes.failed st op.toList
    | (op, Except.ok st') =>
      match write_loop ad tbl rs st' with
      | WriteRes.ok c st'' ops => WriteRes.ok (c + 1) st'' (op.toList ++ ops)
      | WriteRes.failed st'' ops => WriteRes.failed st'' (op.toList ++ ops)

/-- Result of migrating one table: the migrated-row count returned by
migrate_table, the target state and the adapter writes issued. -/
structure TableResult where
  count : Nat
  state : TargetState
  ops : List AdapterOp
deriving DecidableEq

/-- Embeds DataMigrator.migrate_table (lines 62-131): read the table from
the legacy store (a raised read exception is caught and yields count 0), run
the write loop (a raised write exception is caught and yields count 0,
keeping the writes already applied), and for the messages table issue the
batch insert when the read produced any rows. -/
def migrate_table (db : SQLiteDB) (ad : Adapter) (st : TargetState) (tbl : String) :
    TableResult :=
  match read_table db tbl with
  | none => { count := 0, state := st, ops := [] }
  | some (Except.error _) => { count := 0, state := st, ops := [] }
  | some (Except.ok rows) =>
    match write_loop ad tbl rows st with
    | WriteRes.failed st' ops => { count := 0, state := st', ops := ops }
    | WriteRes.ok c st' ops =>
      if tbl = "messages" then
        if rows.isEmpty then { count := c, state := st', ops := ops }
        else
          match ad.insert_messages rows st' with
          | Except.error _ =>
            { count := 0, state := st', ops := ops ++ [AdapterOp.insertMessagesBatch rows] }
          | Except.ok st'' =>
            { count := c, state := st'', ops := ops ++ [AdapterOp.insertMessagesBatch rows] }
      else { count := c, state := st', ops := ops }

/-- The fixed table order of main (migrate_to_postgres.py lines 316-324). -/
def tables_list : List String :=
  ["users", "chats", "messages", "media", "reactions", "sync_status", "metadata"]

/-- Outcome of the orchestration loop of main: total row count, final target
state, the per-table counts in processing order, and all adapter writes. -/
structure RunResult where
  total : Nat
  state : TargetState
  table_counts : List (String × Nat)
  ops : List AdapterOp
deriving DecidableEq

/-- The orchestration loop of main (lines 326-329): invoke migrate_table for
every table of the list in order, unconditionally, accumulating the counts. -/
def run_tables (db : SQLiteDB) (ad : Adapter) (st : TargetState) :
    List String → RunResult
  | [] => { total := 0, state := st, table_counts := [], ops := [] }
  | t :: ts =>
    let res := migrate_table db ad st t
    let rest := run_tables db ad res.state ts
    { total := res.count + rest.total, state := rest.state,
      table_counts := (t, res.count) :: rest.table_counts,
      ops := res.ops ++ rest.ops }

/-- The legacy-side chat count recomputed by verify_migration (line 248):
the length of the default chat listing. -/
def sqlite_chat_count (db : SQLiteDB) : Nat :=
  db.chats_default.length

/-- The legacy-side total message count recomputed by verify_migration
(lines 249-252): get_message_count summed over the default chat listing. -/
def sqlite_message_total (db : SQLiteDB) : Nat :=
  (db.chats_default.map (fun c => (db.messages_of (get_val c "id")).length)).sum

/-- Aggregate counts of the target adapter get_stats call, as compared by
verify_migration. -/
structure Stats where
  chats : Nat
  messages : Nat
  users : Nat
  media : Nat
deriving DecidableEq

/-- Modelled from the spec: the target adapter get_stats call of section 4.1,
reporting total counts across the major entities. -/
def get_stats (st : TargetState) : Stats :=
  { chats := st.chat_keys.length, messages := st.message_keys.length,
    users := st.user_keys.length, media := st.media_keys.length }

/-- Whether the legacy reads issued by verify_migration raise: they touch
the chat listing and the per-chat message counts. -/
def verify_raises (db : SQLiteDB) : Bool :=
  db.fail_chats || db.fail_messages

/-- The comparison verify_migration performs (lines 257-265): both the chat
count and the total message count recomputed from the legacy store must
equal the corresponding entry of the target get_stats result. -/
def verify_ok (db : SQLiteDB) (st : TargetState) : Bool :=
  (sqlite_chat_count db == (get_stats st).chats) &&
  (sqlite_message_total db == (get_stats st).messages)

/-- Embeds DataMigrator.verify_migration (lines 242-274): recompute the chat
count and total message count from the legacy store, compare each with the
target stats, and succeed exactly when both match. The target state is
returned untouched: the method only reads. A raised legacy read propagates
(it is not caught inside verify_migration). -/
def verify_migration (db : SQLiteDB) (st : TargetState) :
    Except String (Bool × TargetState) :=
  if verify_raises db then
    Except.error "error reading from SQLite during verification"
  else
    Except.ok (verify_ok db st, st)

/-- Python truthiness of os.getenv: unset (None) and the empty string are
falsy. -/
def env_truthy : Option String → Bool
  | none => false
  | some s => !s.isEmpty

/-- The full orchestrated migration run of main against the spec-modelled
PostgreSQL adapter, starting from a fresh target. -/
def migration_run (db : SQLiteDB) : RunResult :=
  run_tables db spec_adapter init_target tables_list

/-- Embeds main (migrate_to_postgres.py lines 277-355): exit 1 when
POSTGRES_PASSWORD is unset or empty, exit 1 when the SQLite database file
does not exist, exit 1 when constructing the migrator raises (connect_ok
injects such an escaping exception, caught by the try of main), otherwise
run every table and exit by the verification outcome: 0 on success, 1 on a
mismatch, and 1 when verification itself raises. -/
def main_model (env_password : Option String) (file_exists connect_ok : Bool)
    (db : SQLiteDB) : Nat :=
  if !(env_truthy env_password) then 1
  else if !file_exists then 1
  else if !connect_ok then 1
  else
    match verify_migration db (migration_run db).state with
    | Except.error _ => 1
    | Except.ok (true, _) => 0
    | Except.ok (false, _) => 1

/-- Modelled from the spec: the persistent store backing one concrete
adapter, reduced to the fields chat deletion touches. Messages are
(message id, chat id, sender id) triples, media (media id, chat id) pairs,
sync rows the chat ids holding a SyncStatus row, users (user id, username)
pairs. -/
structure ChatStore where
  chats : List Int
  messages : List (Int × Int × Int)
  media : List (String × Int)
  sync_rows : List Int
  users : List (Int × String)
deriving DecidableEq

/-- Modelled from the spec: delete_chat of the concrete adapters (their
source is outside the snapshot; adapter.py lines 75-86 give the contract:
delete a chat and all related data, returning whether a row existed, and
models.py lines 51-54 give the cascade to Messages, Media and SyncStatus,
with Users untouched). -/
def delete_chat (st : ChatStore) (chat_id : Int) : Bool × ChatStore :=
  if chat_id ∈ st.chats then
    (true,
      { chats := st.chats.filter (fun c => c ≠ chat_id),
        messages := st.messages.filter (fun m => m.2.1 ≠ chat_id),
        media := st.media.filter (fun m => m.2 ≠ chat_id),
        sync_rows := st.sync_rows.filter (fun c => c ≠ chat_id),
        users := st.users })
  else (false, st)

/-- The adapter operations issued by a write-loop run, successful or not. -/
def write_res_ops : WriteRes → List AdapterOp
  | WriteRes.ok _ _ ops => ops
  | WriteRes.failed _ ops => ops

/-- A row is clean when none of its values is the empty string: the
normalization goal of _convert_dict. -/
def row_clean (r : Row) : Prop :=
  ∀ p ∈ r, p.2 ≠ Value.vStr ""

/-- An adapter write is clean when no value of its payload equals the empty
string. -/
def op_clean : AdapterOp → Prop
  | AdapterOp.upsertChat r => row_clean r
  | AdapterOp.insertMessagesBatch rs => ∀ r ∈ rs, row_clean r
  | AdapterOp.upsertUser r => row_clean r
  | AdapterOp.upsertMedia r => row_clean r
  | AdapterOp.insertReactions rs => ∀ r ∈ rs, row_clean r
  | AdapterOp.updateSyncStatus a b c =>
      a ≠ Value.vStr "" ∧ b ≠ Value.vStr "" ∧ c ≠ Value.vStr ""
  | AdapterOp.setMetadata k v => k ≠ Value.vStr "" ∧ v ≠ Value.vStr ""

/-- Configuration with an unsupported discriminator, for the factory
scenarios. -/
def mysql_cfg : Config :=
  { db_type := some "mysql", database_path := "", database_timeout := 0,
    postgres_host := none, postgres_port := none, postgres_db := none,
    postgres_user := none, postgres_password := none, postgres_pool_size := none }

/-- Configuration selecting the networked backend with the password attribute
absent. -/
def nopass_cfg : Config :=
  { db_type := some "postgres-alchemy", database_path := "", database_timeout := 0,
    postgres_host := some "localhost", postgres_port := some 5432,
    postgres_db := some "telegram_backup", postgres_user := some "postgres",
    postgres_password := none, postgres_pool_size := some 5 }

/-- Mixed-case discriminator for the SQLAlchemy SQLite backend. -/
def upper_alchemy_cfg : Config :=
  { db_type := some "SQLite-Alchemy", database_path := "/tmp/test.db",
    database_timeout := 30, postgres_host := none, postgres_port := none,
    postgres_db := none, postgres_user := none, postgres_password := none,
    postgres_pool_size := none }

/-- Lower-case twin of `upper_alchemy_cfg`. -/
def lower_alchemy_cfg : Config :=
  { db_type := some "sqlite-alchemy", database_path := "/tmp/test.db",
    database_timeout := 30, postgres_host := none, postgres_port := none,
    postgres_db := none, postgres_user := none, postgres_password := none,
    postgres_pool_size := none }

/-- Mixed-case plain sqlite discriminator. -/
def upper_sqlite_cfg : Config :=
  { db_type := some "SQLite", database_path := "", database_timeout := 0,
    postgres_host := none, postgres_port := none, postgres_db := none,
    postgres_user := none, postgres_password := none, postgres_pool_size := none }

/-- A legacy store whose reactions table raises on read while every other
table is empty and readable. -/
def c2_fail_db : SQLiteDB :=
  { chats_all := [], chats_default := [], messages_of := fun _ => [],
    users := [], media := [], reactions := [], sync_rows := [],
    metadata_pairs := [], fail_chats := false, fail_messages := false,
    fail_users := false, fail_media := false, fail_reactions := true,
    fail_sync := false, fail_metadata := false }

/-- An empty, fully readable legacy store. -/
def empty_ok_db : SQLiteDB :=
  { chats_all := [], chats_default := [], messages_of := fun _ => [],
    users := [], media := [], reactions := [], sync_rows := [],
    metadata_pairs := [], fail_chats := false, fail_messages := false,
    fail_users := false, fail_media := false, fail_reactions := false,
    fail_sync := false, fail_metadata := false }

/-- A legacy store whose users table raises on read. -/
def c3_fail_db : SQLiteDB :=
  { chats_all := [], chats_default := [], messages_of := fun _ => [],
    users := [], media := [], reactions := [], sync_rows := [],
    metadata_pairs := [], fail_chats := false, fail_messages := false,
    fail_users := true, fail_media := false, fail_reactions := false,
    fail_sync := false, fail_metadata := false }

/-- A legacy store holding one metadata entry whose value is the empty
string, every other table empty. -/
def c8_db : SQLiteDB :=
  { chats_all := [], chats_default := [], messages_of := fun _ => [],
    users := [], media := [], reactions := [], sync_rows := [],
    metadata_pairs := [("api_hash", "")], fail_chats := false,
    fail_messages := false, fail_users := false, fail_media := false,
    fail_reactions := false, fail_sync := false, fail_metadata := false }

/-- A legacy store with one chat owning two messages, for the verification
scenario. -/
def c9_db : SQLiteDB :=
  { chats_all := [[("id", Value.vInt 1)]],
    chats_default := [[("id", Value.vInt 1)]],
    messages_of := fun v =>
      if v = Value.vInt 1 then
        [[("id", Value.vInt 7), ("chat_id", Value.vInt 1)],
         [("id", Value.vInt 8), ("chat_id", Value.vInt 1)]]
      else [],
    users := [], media := [], reactions := [], sync_rows := [],
    metadata_pairs := [], fail_chats := false, fail_messages := false,
    fail_users := false, fail_media := false, fail_reactions := false,
    fail_sync := false, fail_metadata := false }

/-- A legacy store with one chat owning one message, for the paging
scenario. -/
def c7_db : SQLiteDB :=
  { chats_all := [[("id", Value.vInt 1)]],
    chats_default := [[("id", Value.vInt 1)]],
    messages_of := fun v =>
      if v = Value.vInt 1 then
        [[("id", Value.vInt 7), ("chat_id", Value.vInt 1), ("text", Value.vStr "hi")]]
      else [],
    users := [], media := [], reactions := [], sync_rows := [],
    metadata_pairs := [], fail_chats := false, fail_messages := false,
    fail_users := false, fail_media := false, fail_reactions := false,
    fail_sync := false, fail_metadata := false }

/-- A target state matching `c9_db`: one chat, two messages. -/
def c9_target : TargetState :=
  { chat_keys := [Value.vInt 1],
    message_keys := [(Value.vInt 7, Value.vInt 1), (Value.vInt 8, Value.vInt 1)],
    user_keys := [], media_keys := [], reaction_rows := 0, sync_keys := [],
    metadata_keys := [] }

/-- A concrete adapter store with two chats sharing a user, for the deletion
scenario. -/
def c4_store : ChatStore :=
  { chats := [1, 2],
    messages := [(10, 1, 100), (11, 2, 100)],
    media := [("m1", 1), ("m2", 2)],
    sync_rows := [1, 2],
    users := [(100, "alice"), (200, "bob")] }

/-- C1: the claim states that with a configured namespace every one of the
seven tables lives under that namespace and placement is never mixed. The
code violates it: evaluated at the configured name telegram, the chats table
keeps the default namespace (Chat.__table_args__ carries no schema entry)
while the six other tables are placed under telegram. -/
theorem c1_namespace_mixed :
    chats_table_schema (some "telegram") = none
    ∧ messages_table_schema (some "telegram") = some "telegram"
    ∧ users_table_schema (some "telegram") = some "telegram"
    ∧ media_table_schema (some "telegram") = some "telegram"
    ∧ reactions_table_schema (some "telegram") = some "telegram"
    ∧ sync_status_table_schema (some "telegram") = some "telegram"
    ∧ metadata_table_schema (some "telegram") = some "telegram" := by
  decide

/-- C5: for every configuration, a discriminator outside the recognized set
yields a configuration error whose message names the (lowercased) offending
value, and selecting the networked backend with an absent-or-empty password
yields a configuration error — an Except.error, so no adapter instance is
ever constructed. -/
theorem c5_factory_configuration_errors :
    (∀ cfg : Config,
      str_lower (cfg.db_type.getD "sqlite") ≠ "sqlite" →
      str_lower (cfg.db_type.getD "sqlite") ≠ "sqlite-alchemy" →
      str_lower (cfg.db_type.getD "sqlite") ≠ "postgres-alchemy" →
      create_database_adapter cfg =
        Except.error ("Unsupported database type: " ++ str_lower (cfg.db_type.getD "sqlite")))
    ∧ (∀ cfg : Config,
      str_lower (cfg.db_type.getD "sqlite") = "postgres-alchemy" →
      cfg.postgres_password.getD "" = "" →
      create_database_adapter cfg =
        Except.error "PostgreSQL password is required when using postgres-alchemy") := by
  constructor
  · intro cfg h1 h2 h3
    simp [create_database_adapter, h1, h2, h3]
  · intro cfg h1 h2
    simp [create_database_adapter, h1, h2]

/-- Witness for C5 at two concrete configurations: the discriminator mysql
is rejected with a message naming it, and postgres-alchemy with an absent
password is rejected. -/
theorem c5_factory_configuration_errors_witness :
    create_database_adapter mysql_cfg =
      Except.error ("Unsupported database type: " ++ str_lower (mysql_cfg.db_type.getD "sqlite"))
    ∧ create_database_adapter nopass_cfg =
      Except.error "PostgreSQL password is required when using postgres-alchemy" :=
  ⟨c5_factory_configuration_errors.1 mysql_cfg (by decide) (by decide) (by decide),
   c5_factory_configuration_errors.2 nopass_cfg (by decide) rfl⟩

/-- C10: the factory result depends on the discriminator only through its
lowercasing, the discriminator sqlite in any letter case always raises the
redirect message pointing to the original src.database.Database
implementation, and a usable adapter is only ever produced for
sqlite-alchemy or postgres-alchemy. -/
theorem c10_factory_discriminator_handling :
    (∀ cfg₁ cfg₂ : Config,
      str_lower (cfg₁.db_type.getD "sqlite") = str_lower (cfg₂.db_type.getD "sqlite") →
      cfg₁.database_path = cfg₂.database_path →
      cfg₁.database_timeout = cfg₂.database_timeout →
      cfg₁.postgres_host = cfg₂.postgres_host →
      cfg₁.postgres_port = cfg₂.postgres_port →
      cfg₁.postgres_db = cfg₂.postgres_db →
      cfg₁.postgres_user = cfg₂.postgres_user →
      cfg₁.postgres_password = cfg₂.postgres_password →
      cfg₁.postgres_pool_size = cfg₂.postgres_pool_size →
      create_database_adapter cfg₁ = create_database_adapter cfg₂)
    ∧ (∀ cfg : Config, str_lower (cfg.db_type.getD "sqlite") = "sqlite" →
      create_database_adapter cfg = Except.error sqlite_redirect_message)
    ∧ (∀ (cfg : Config) (a : AdapterInstance),
      create_database_adapter cfg = Except.ok a →
      str_lower (cfg.db_type.getD "sqlite") = "sqlite-alchemy" ∨
      str_lower (cfg.db_type.getD "sqlite") = "postgres-alchemy") := by
  refine ⟨?_, ?_, ?_⟩
  · intro cfg₁ cfg₂ h0 h1 h2 h3 h4 h5 h6 h7 h8
    simp only [create_database_adapter, h0, h1, h2, h3, h4, h5, h6, h7, h8]
  · intro cfg h
    simp [create_database_adapter, h]
  · intro cfg a h
    by_cases h1 : str_lower (cfg.db_type.getD "sqlite") = "sqlite"
    · simp [create_database_adapter, h1] at h
    · by_cases h2 : str_lower (cfg.db_type.getD "sqlite") = "sqlite-alchemy"
      · exact Or.inl h2
      · by_cases h3 : str_lower (cfg.db_type.getD "sqlite") = "postgres-alchemy"
        · exact Or.inr h3
        · simp [create_database_adapter, h1, h2, h3] at h

/-- Witness for C10 at concrete configurations: the mixed-case
SQLite-Alchemy discriminator behaves like its lowercase twin, mixed-case
SQLite raises the redirect error, and the one configuration shown to return
an adapter has a discriminator lowercasing to sqlite-alchemy. -/
theorem c10_factory_discriminator_handling_witness :
    create_database_adapter upper_alchemy_cfg = create_database_adapter lower_alchemy_cfg
    ∧ create_database_adapter upper_sqlite_cfg = Except.error sqlite_redirect_message
    ∧ (str_lower (lower_alchemy_cfg.db_type.getD "sqlite") = "sqlite-alchemy" ∨
       str_lower (lower_alchemy_cfg.db_type.getD "sqlite") = "postgres-alchemy") :=
  ⟨c10_factory_discriminator_handling.1 upper_alchemy_cfg lower_alchemy_cfg
      (by decide) rfl rfl rfl rfl rfl rfl rfl rfl,
   c10_factory_discriminator_handling.2.1 upper_sqlite_cfg (by decide),
   c10_factory_discriminator_handling.2.2 lower_alchemy_cfg
      (AdapterInstance.sqliteAdapter "/tmp/test.db" 30) rfl⟩

/-- C6: the orchestration loop of main processes exactly the sequence
users, chats, messages, media, reactions, sync_status, metadata, whatever
the legacy store, the adapter and the starting state are. -/
theorem c6_migration_table_order :
    ∀ (db : SQLiteDB) (ad : Adapter) (st : TargetState),
      (run_tables db ad st tables_list).table_counts.map Prod.fst =
        ["users", "chats", "messages", "media", "reactions", "sync_status", "metadata"] := by
  intro db ad st
  rfl

/-- C4: for every chat id present in the store, delete_chat reports the
deletion, removes the chat, all of its messages, all of its media and its
sync row, keeps every row of other chats, and leaves the users table exactly
as it was. -/
theorem c4_delete_chat_cascades :
    ∀ (st : ChatStore) (cid : Int), cid ∈ st.chats →
      (delete_chat st cid).1 = true
      ∧ cid ∉ (delete_chat st cid).2.chats
      ∧ (∀ m ∈ (delete_chat st cid).2.messages, m.2.1 ≠ cid)
      ∧ (∀ m ∈ st.messages, m.2.1 ≠ cid → m ∈ (delete_chat st cid).2.messages)
      ∧ (∀ x ∈ (delete_chat st cid).2.media, x.2 ≠ cid)
      ∧ (∀ x ∈ st.media, x.2 ≠ cid → x ∈ (delete_chat st cid).2.media)
      ∧ cid ∉ (delete_chat st cid).2.sync_rows
      ∧ (delete_chat st cid).2.users = st.users := by
  intro st cid h
  unfold delete_chat
  rw [if_pos h]
  refine ⟨rfl, ?_, ?_, ?_, ?_, ?_, ?_, rfl⟩ <;> simp [List.mem_filter] <;> tauto

/-- Witness for C4 at a concrete store: deleting chat 1 succeeds and keeps
both user rows, the sender of the deleted messages included. -/
theorem c4_delete_chat_cascades_witness :
    (delete_chat c4_store 1).1 = true ∧ (delete_chat c4_store 1).2.users = c4_store.users :=
  ⟨(c4_delete_chat_cascades c4_store 1 (by decide)).1,
   (c4_delete_chat_cascades c4_store 1 (by decide)).2.2.2.2.2.2.2⟩

/-- C9: whenever verify_migration returns, it hands the target state back
untouched (no deletion or rollback of written data), and it succeeds exactly
when the chat count and the total message count recomputed from the legacy
store match the corresponding entries of the target get_stats result. -/
theorem c9_verify_migration_compares_counts :
    ∀ (db : SQLiteDB) (st : TargetState) (b : Bool) (st' : TargetState),
      verify_migration db st = Except.ok (b, st') →
      st' = st
      ∧ (b = true ↔ (sqlite_chat_count db = (get_stats st).chats ∧
                     sqlite_message_total db = (get_stats st).messages)) := by
  intro db st b st' h
  unfold verify_migration at h
  by_cases hf : verify_raises db = true
  · rw [if_pos hf] at h
    exact absurd h (by simp)
  · rw [if_neg hf] at h
    obtain ⟨hb, hst⟩ := Prod.mk.injEq .. ▸ Except.ok.inj h
    refine ⟨hst.symm, ?_⟩
    rw [← hb]
    simp [verify_ok, Bool.and_eq_true, beq_iff_eq]

/-- Witness for C9 at a concrete pair: one chat with two messages on the
legacy side and a matching target state. -/
theorem c9_verify_migration_compares_counts_witness :
    c9_target = c9_target
    ∧ (true = true ↔ (sqlite_chat_count c9_db = (get_stats c9_target).chats ∧
                      sqlite_message_total c9_db = (get_stats c9_target).messages)) :=
  c9_verify_migration_compares_counts c9_db c9_target true c9_target rfl

/-- C3: a raised exception while reading a table from the legacy store, a
raised exception inside the write loop, and a raised exception in the
messages batch insert each make migrate_table return a migrated-row count of
0, and the orchestration loop still records one migrate_table invocation per
table of the fixed order list, for every store and adapter. -/
theorem c3_per_table_failure_isolated :
    (∀ (db : SQLiteDB) (ad : Adapter) (st : TargetState) (tbl : String) (e : String),
      read_table db tbl = some (Except.error e) →
      (migrate_table db ad st tbl).count = 0)
    ∧ (∀ (db : SQLiteDB) (ad : Adapter) (st : TargetState) (tbl : String)
        (rows : List Row) (st' : TargetState) (ops : List AdapterOp),
      read_table db tbl = some (Except.ok rows) →
      write_loop ad tbl rows st = WriteRes.failed st' ops →
      (migrate_table db ad st tbl).count = 0)
    ∧ (∀ (db : SQLiteDB) (ad : Adapter) (st : TargetState)
        (rows : List Row) (c : Nat) (st' : TargetState) (ops : List AdapterOp) (e : String),
      read_table db "messages" = some (Except.ok rows) →
      write_loop ad "messages" rows st = WriteRes.ok c st' ops →
      rows.isEmpty = false →
      ad.insert_messages rows st' = Except.error e →
      (migrate_table db ad st "messages").count = 0)
    ∧ (∀ (db : SQLiteDB) (ad : Adapter) (st : TargetState),
      (run_tables db ad st tables_list).table_counts.map Prod.fst = tables_list) := by
  refine ⟨?_, ?_, ?_, ?_⟩
  · intro db ad st tbl e h
    simp [migrate_table, h]
  · intro db ad st tbl rows st' ops h1 h2
    simp [migrate_table, h1, h2]
  · intro db ad st rows c st' ops e h1 h2 h3 h4
    simp [migrate_table, h1, h2, h3, h4]
  · intro db ad st
    rfl

/-- Witness for C3 at a concrete store whose users table raises: the users
count is 0 and the orchestration still records all seven tables in order. -/
theorem c3_per_table_failure_isolated_witness :
    (migrate_table c3_fail_db spec_adapter init_target "users").count = 0
    ∧ (run_tables c3_fail_db spec_adapter init_target tables_list).table_counts.map Prod.fst
        = tables_list :=
  ⟨c3_per_table_failure_isolated.1 c3_fail_db spec_adapter init_target "users"
      "error reading users from SQLite" rfl,
   c3_per_table_failure_isolated.2.2.2 c3_fail_db spec_adapter init_target⟩

/-- C2 as amended: main returns only 0 or 1, and returns 0 exactly when the
credential is set and non-empty, the source store file exists, migrator
construction does not raise, and the verification pass returns success.
A table-level exception caught inside migrate_table does not by itself force
exit status 1: it only reaches the exit status through the verification
counts. -/
theorem c2_exit_status_amended :
    ∀ (env : Option String) (fe ck : Bool) (db : SQLiteDB),
      (main_model env fe ck db = 0 ∨ main_model env fe ck db = 1)
      ∧ (main_model env fe ck db = 0 ↔
          (env_truthy env = true ∧ fe = true ∧ ck = true ∧
           verify_migration db (migration_run db).state =
             Except.ok (true, (migration_run db).state))) := by
  intro env fe ck db
  unfold main_model
  cases he : env_truthy env
  · simp [he]
  · cases fe
    · simp [he]
    · cases ck
      · simp [he]
      · simp only [he, Bool.not_true, Bool.false_eq_true, if_false]
        unfold verify_migration
        by_cases hr : verify_raises db = true
        · rw [if_pos hr]
          simp
        · rw [if_neg hr]
          cases hb : verify_ok db (migration_run db).state <;> simp

/-- Witness for C2 at a concrete input: with the password set, the file
present, a successful construction and an empty readable store, main
returns 0 and the characterization holds. -/
theorem c2_exit_status_amended_witness :
    (main_model (some "pw") true true empty_ok_db = 0 ∨
     main_model (some "pw") true true empty_ok_db = 1)
    ∧ (main_model (some "pw") true true empty_ok_db = 0 ↔
        (env_truthy (some "pw") = true ∧ true = true ∧ true = true ∧
         verify_migration empty_ok_db (migration_run empty_ok_db).state =
           Except.ok (true, (migration_run empty_ok_db).state))) :=
  c2_exit_status_amended (some "pw") true true empty_ok_db

/-- C2 counterexample to the claim as stated: on a legacy store whose
reactions table raises during its transfer (a table-level exception during
orchestration, caught by migrate_table and counted as 0 rows), main still
returns exit status 0 because the verification counts match — not 1 as the
claim requires. -/
theorem c2_table_failure_counterexample :
    read_table c2_fail_db "reactions" =
      some (Except.error "error reading reactions from SQLite")
    ∧ (migrate_table c2_fail_db spec_adapter init_target "reactions").count = 0
    ∧ main_model (some "secret") true true c2_fail_db = 0 :=
  ⟨rfl, rfl, rfl⟩

/-- The per-chat paging loop collects exactly the suffix of the message list
starting at the given offset. -/
theorem collect_messages_eq_drop (msgs : List Row) (offset : Nat) :
    collect_messages msgs offset = msgs.drop offset := by
  have H : ∀ (k offset : Nat), msgs.length - offset ≤ k →
      collect_messages msgs offset = msgs.drop offset := by
    intro k
    induction k with
    | zero =>
      intro offset h
      have hd : msgs.drop offset = [] := List.drop_eq_nil_of_le (by omega)
      rw [collect_messages]
      simp [sqlite_get_messages, hd]
    | succ k ih =>
      intro offset h
      rw [collect_messages]
      by_cases he : (sqlite_get_messages msgs batch_size offset).isEmpty
      · rw [if_pos he]
        have he2 : (msgs.drop offset).take batch_size = [] := by
          simpa [sqlite_get_messages] using List.isEmpty_iff.mp he
        rcases List.take_eq_nil_iff.mp he2 with h1 | h2
        · exact absurd h1 (by simp [batch_size])
        · rw [h2]
      · rw [if_neg he]
        by_cases hl : (sqlite_get_messages msgs batch_size offset).length < batch_size
        · rw [if_pos hl]
          have hlen : (msgs.drop offset).length ≤ batch_size := by
            simp only [sqlite_get_messages, List.length_take, List.length_drop] at hl ⊢
            omega
          exact List.take_of_length_le hlen
        · rw [if_neg hl]
          have hge : batch_size ≤ msgs.length - offset := by
            simp only [sqlite_get_messages, List.length_take, List.length_drop,
              not_lt] at hl
            omega
          rw [ih (offset + batch_size) (by simp only [batch_size] at hge ⊢; omega)]
          rw [show msgs.drop (offset + batch_size) = (msgs.drop offset).drop batch_size from
            (List.drop_drop batch_size offset msgs).symm]
          exact List.take_append_drop batch_size (msgs.drop offset)
  exact H (msgs.length - offset) offset le_rfl

/-- The offsets requested by the paging loop form the arithmetic progression
offset, offset + batch_size, ... with exactly
(remaining length) / batch_size + 1 requests. -/
theorem page_offsets_spec (msgs : List Row) (offset : Nat) :
    page_offsets msgs offset =
      (List.range ((msgs.length - offset) / batch_size + 1)).map
        (fun i => offset + batch_size * i) := by
  have H : ∀ (k offset : Nat), msgs.length - offset ≤ k →
      page_offsets msgs offset =
        (List.range ((msgs.length - offset) / batch_size + 1)).map
          (fun i => offset + batch_size * i) := by
    intro k
    induction k with
    | zero =>
      intro offset h
      rw [page_offsets]
      have hl : (sqlite_get_messages msgs batch_size offset).length < batch_size := by
        simp only [sqlite_get_messages, List.length_take, List.length_drop, batch_size] at h ⊢
        omega
      rw [if_pos hl]
      have hz : (msgs.length - offset) / batch_size = 0 :=
        Nat.div_eq_of_lt (by simp only [batch_size] at h ⊢; omega)
      rw [hz]
      rw [show List.range 1 = [0] from rfl]
      simp
    | succ k ih =>
      intro offset h
      rw [page_offsets]
      by_cases hl : (sqlite_get_messages msgs batch_size offset).length < batch_size
      · rw [if_pos hl]
        have hlt : msgs.length - offset < batch_size := by
          simp only [sqlite_get_messages, List.length_take, List.length_drop,
            batch_size] at hl ⊢
          omega
        rw [Nat.div_eq_of_lt hlt]
        rw [show List.range 1 = [0] from rfl]
        simp
      · rw [if_neg hl]
        have hge : batch_size ≤ msgs.length - offset := by
          simp only [sqlite_get_messages, List.length_take, List.length_drop,
            not_lt] at hl
          omega
        have hpos : 0 < batch_size := by norm_num [batch_size]
        have hdiv : (msgs.length - offset) / batch_size
            = (msgs.length - (offset + batch_size)) / batch_size + 1 := by
          rw [Nat.div_eq_sub_div hpos hge]
          simp only [batch_size]
          omega
        rw [ih (offset + batch_size) (by simp only [batch_size] at hge ⊢; omega), hdiv]
        conv_rhs => rw [List.range_succ_eq_map]
        rw [List.map_cons, List.map_map]
        have hfun : ((fun i => offset + batch_size * i) ∘ Nat.succ)
            = (fun i => offset + batch_size + batch_size * i) := by
          funext i
          simp only [Function.comp_apply, Nat.mul_succ]
          ring
        rw [hfun]
        norm_num
  exact H (msgs.length - offset) offset le_rfl

/-- C7: the migrator pages per chat with the fixed batch size 1000,
requesting the offsets 0, 1000, 2000, ... (exactly length / 1000 + 1
requests, the last being the page that came back empty or short), the
collected pages reassemble the chat message list exactly, every message of
every chat of the legacy chat listing reaches the collected result (after
the per-row conversion), and a failure-free read returns that collection. -/
theorem c7_message_paging :
    (∀ msgs : List Row,
      page_offsets msgs 0 =
        (List.range (msgs.length / batch_size + 1)).map (fun i => batch_size * i))
    ∧ (∀ msgs : List Row, collect_messages msgs 0 = msgs)
    ∧ (∀ (db : SQLiteDB) (c m : Row),
      c ∈ db.chats_default → m ∈ db.messages_of (get_val c "id") →
      convert_message m ∈ all_messages db)
    ∧ (∀ db : SQLiteDB, db.fail_chats = false → db.fail_messages = false →
      get_messages_all db = Except.ok (all_messages db)) := by
  refine ⟨?_, ?_, ?_, ?_⟩
  · intro msgs
    simpa using page_offsets_spec msgs 0
  · intro msgs
    simpa using collect_messages_eq_drop msgs 0
  · intro db c m hc hm
    unfold all_messages
    refine List.mem_flatten.mpr
      ⟨(collect_messages (db.messages_of (get_val c "id")) 0).map convert_message,
       List.mem_map_of_mem _ hc, ?_⟩
    have h2 : collect_messages (db.messages_of (get_val c "id")) 0
        = db.messages_of (get_val c "id") := by
      simpa using collect_messages_eq_drop (db.messages_of (get_val c "id")) 0
    rw [h2]
    exact List.mem_map_of_mem _ hm
  · intro db h1 h2
    simp [get_messages_all, h1, h2]

/-- Witness for C7 at concrete inputs: the empty message list is requested
once at offset 0, and the one message of chat 1 reaches the collected
result. -/
theorem c7_message_paging_witness :
    page_offsets [] 0 =
      (List.range (List.length ([] : List Row) / batch_size + 1)).map (fun i => batch_size * i)
    ∧ convert_message [("id", Value.vInt 7), ("chat_id", Value.vInt 1), ("text", Value.vStr "hi")]
        ∈ all_messages c7_db :=
  ⟨c7_message_paging.1 [],
   c7_message_paging.2.2.1 c7_db [("id", Value.vInt 1)]
     [("id", Value.vInt 7), ("chat_id", Value.vInt 1), ("text", Value.vStr "hi")]
     (by decide) (by decide)⟩

/-- The normalization pass leaves no empty-string value in a row. -/
theorem convert_dict_clean (r : Row) : row_clean (convert_dict r) := by
  intro p hp
  rcases List.mem_map.mp hp with ⟨q, hq, rfl⟩
  by_cases h : q.2 = Value.vStr ""
  · simp [h]
  · simp [h]

/-- The datetime fix-up preserves cleanliness: it only replaces string
values by datetime values. -/
theorem fix_date_clean (f : String) (r : Row) (h : row_clean r) :
    row_clean (fix_date f r) := by
  intro p hp
  rcases List.mem_map.mp hp with ⟨q, hq, rfl⟩
  have hq2 := h q hq
  by_cases hf : q.1 = f
  · simp only [if_pos hf]
    cases hv : q.2 with
    | vStr s =>
      dsimp only
      by_cases hs : s.isEmpty = true
      · rw [if_pos hs]
        exact hq2
      · rw [if_neg hs]
        simp
    | vNull => exact hq2
    | vInt n => exact hq2
    | vBool b => exact hq2
    | vDt iso => exact hq2
  · simp only [if_neg hf]
    exact hq2

/-- The full per-message conversion yields a clean row. -/
theorem convert_message_clean (r : Row) : row_clean (convert_message r) :=
  fix_date_clean _ _ (fix_date_clean _ _ (convert_dict_clean r))

/-- Looking a key up in a clean row never yields the empty string. -/
theorem get_val_clean :
    ∀ (r : Row), row_clean r → ∀ (k : String), get_val r k ≠ Value.vStr "" := by
  intro r
  induction r with
  | nil => intro _ k; simp [get_val]
  | cons p ps ih =>
    intro h k
    have hp := h p (by simp)
    have hps : row_clean ps := fun q hq => h q (List.mem_cons_of_mem _ hq)
    by_cases hk : p.1 = k
    · simpa [get_val, hk] using hp
    · simpa [get_val, hk] using ih hps k

/-- Every row of the collected message list is clean. -/
theorem all_messages_clean (db : SQLiteDB) :
    ∀ r ∈ all_messages db, row_clean r := by
  intro r hr
  rcases List.mem_flatten.mp hr with ⟨inner, hinner, hrin⟩
  rcases List.mem_map.mp hinner with ⟨c, _, rfl⟩
  rcases List.mem_map.mp hrin with ⟨m, _, rfl⟩
  exact convert_message_clean m

/-- The operation recorded by the per-row write dispatch for a clean row is
clean. -/
theorem write_one_op_clean (ad : Adapter) (tbl : String) (r : Row) (st : TargetState)
    (h : row_clean r) : ∀ op, (write_one ad tbl r st).1 = some op → op_clean op := by
  intro op hop
  unfold write_one at hop
  split_ifs at hop <;> simp only [Option.some.injEq, reduceCtorEq] at hop
  · exact hop ▸ h
  · exact hop ▸ h
  · exact hop ▸ h
  · rw [← hop]
    intro q hq
    rw [List.mem_singleton.mp hq]
    exact h
  · rw [← hop]
    exact ⟨get_val_clean r h _, get_val_clean r h _, get_val_clean r h _⟩
  · rw [← hop]
    exact ⟨get_val_clean r h _, get_val_clean r h _⟩

/-- Every operation the write loop issues for clean rows is clean,
for success and failure alike. -/
theorem write_loop_ops_clean (ad : Adapter) (tbl : String) :
    ∀ (rows : List Row) (st : TargetState),
      (∀ r ∈ rows, row_clean r) →
      ∀ op ∈ write_res_ops (write_loop ad tbl rows st), op_clean op := by
  intro rows
  induction rows with
  | nil =>
    intro st _ op hop
    simp [write_loop, write_res_ops] at hop
  | cons r rs ih =>
    intro st h op hop
    have hr := h r (by simp)
    have hrs : ∀ q ∈ rs, row_clean q := fun q hq => h q (List.mem_cons_of_mem _ hq)
    rw [write_loop] at hop
    split at hop
    · rename_i op' e heq
      simp only [write_res_ops] at hop
      cases op' with
      | none => simp at hop
      | some o =>
        rw [List.mem_singleton.mp hop]
        exact write_one_op_clean ad tbl r st hr o (by rw [heq])
    · rename_i op' st' heq
      have hsome : ∀ o ∈ op'.toList, op_clean o := by
        intro o ho
        cases op' with
        | none => simp at ho
        | some o' =>
          rw [List.mem_singleton.mp ho]
          exact write_one_op_clean ad tbl r st hr o' (by rw [heq])
      split at hop
      · rename_i c st'' ops hrec
        simp only [write_res_ops] at hop
        rcases List.mem_append.mp hop with h1 | h1
        · exact hsome op h1
        · exact ih st' hrs op (by rw [hrec]; simpa [write_res_ops] using h1)
      · rename_i st'' ops hrec
        simp only [write_res_ops] at hop
        rcases List.mem_append.mp hop with h1 | h1
        · exact hsome op h1
        · exact ih st' hrs op (by rw [hrec]; simpa [write_res_ops] using h1)

/-- When every row the read produced is clean, every adapter operation of
migrate_table is clean. -/
theorem migrate_table_ops_clean (db : SQLiteDB) (ad : Adapter) (st : TargetState)
    (tbl : String)
    (hrows : ∀ rows, read_table db tbl = some (Except.ok rows) → ∀ r ∈ rows, row_clean r) :
    ∀ op ∈ (migrate_table db ad st tbl).ops, op_clean op := by
  intro op hop
  unfold migrate_table at hop
  split at hop
  · simp at hop
  · simp at hop
  · rename_i rows hrt
    have hcl := hrows rows hrt
    split at hop
    · rename_i st' ops hwl
      exact write_loop_ops_clean ad tbl rows st hcl op
        (by rw [hwl]; simpa [write_res_ops] using hop)
    · rename_i c st' ops hwl
      have hloop : ∀ o ∈ ops, op_clean o := by
        intro o ho
        exact write_loop_ops_clean ad tbl rows st hcl o
          (by rw [hwl]; simpa [write_res_ops] using ho)
      have hbatch : op_clean (AdapterOp.insertMessagesBatch rows) := hcl
      by_cases hm : tbl = "messages"
      · rw [if_pos hm] at hop
        by_cases hemp : rows.isEmpty = true
        · rw [if_pos hemp] at hop
          exact hloop op hop
        · rw [if_neg hemp] at hop
          split at hop
          · rename_i e hins
            rcases List.mem_append.mp hop with h1 | h1
            · exact hloop op h1
            · rw [List.mem_singleton.mp h1]; exact hbatch
          · rename_i st'' hins
            rcases List.mem_append.mp hop with h1 | h1
            · exact hloop op h1
            · rw [List.mem_singleton.mp h1]; exact hbatch
      · rw [if_neg hm] at hop
        exact hloop op hop

/-- C8 as amended: _convert_dict maps every empty-string value of a row to
None, and the normalization reaches every adapter write of the chats,
messages, users, media, reactions and sync_status tables — none of those
writes carries an empty-string value. Metadata rows are excluded: they
bypass the normalization. -/
theorem c8_normalization_amended :
    (∀ r : Row, row_clean (convert_dict r))
    ∧ (∀ (db : SQLiteDB) (ad : Adapter) (st : TargetState) (tbl : String),
      (tbl = "chats" ∨ tbl = "messages" ∨ tbl = "users" ∨ tbl = "media" ∨
       tbl = "reactions" ∨ tbl = "sync_status") →
      ∀ op ∈ (migrate_table db ad st tbl).ops, op_clean op) := by
  constructor
  · exact convert_dict_clean
  · intro db ad st tbl htbl
    apply migrate_table_ops_clean
    intro rows hread r hr
    have hmap : ∀ (l : List Row), rows = l.map convert_dict → row_clean r := by
      intro l hl
      subst hl
      rcases List.mem_map.mp hr with ⟨q, _, rfl⟩
      exact convert_dict_clean q
    rcases htbl with rfl | rfl | rfl | rfl | rfl | rfl
    · rw [show read_table db "chats" = some (get_chats db) from rfl] at hread
      unfold get_chats at hread
      by_cases hf : db.fail_chats = true
      · rw [if_pos hf] at hread; simp at hread
      · rw [if_neg hf] at hread
        exact hmap _ (Except.ok.inj (Option.some.inj hread)).symm
    · rw [show read_table db "messages" = some (get_messages_all db) from rfl] at hread
      unfold get_messages_all at hread
      by_cases hf : (db.fail_chats || db.fail_messages) = true
      · rw [if_pos hf] at hread; simp at hread
      · rw [if_neg hf] at hread
        have : rows = all_messages db := (Except.ok.inj (Option.some.inj hread)).symm
        exact all_messages_clean db r (this ▸ hr)
    · rw [show read_table db "users" = some (get_users db) from rfl] at hread
      unfold get_users at hread
      by_cases hf : db.fail_users = true
      · rw [if_pos hf] at hread; simp at hread
      · rw [if_neg hf] at hread
        exact hmap _ (Except.ok.inj (Option.some.inj hread)).symm
    · rw [show read_table db "media" = some (get_media db) from rfl] at hread
      unfold get_media at hread
      by_cases hf : db.fail_media = true
      · rw [if_pos hf] at hread; simp at hread
      · rw [if_neg hf] at hread
        exact hmap _ (Except.ok.inj (Option.some.inj hread)).symm
    · rw [show read_table db "reactions" = some (get_reactions db) from rfl] at hread
      unfold get_reactions at hread
      by_cases hf : db.fail_reactions = true
      · rw [if_pos hf] at hread; simp at hread
      · rw [if_neg hf] at hread
        exact hmap _ (Except.ok.inj (Option.some.inj hread)).symm
    · rw [show read_table db "sync_status" = some (get_sync_status db) from rfl] at hread
      unfold get_sync_status at hread
      by_cases hf : db.fail_sync = true
      · rw [if_pos hf] at hread; simp at hread
      · rw [if_neg hf] at hread
        exact hmap _ (Except.ok.inj (Option.some.inj hread)).symm

/-- Witness for C8 at concrete inputs: a row with an empty-string title is
normalized clean, and the chats-table writes of a concrete migration carry
no empty string. -/
theorem c8_normalization_amended_witness :
    row_clean (convert_dict [("id", Value.vInt 3), ("title", Value.vStr "")])
    ∧ op_clean (AdapterOp.upsertChat [("id", Value.vInt 1)]) :=
  ⟨c8_normalization_amended.1 [("id", Value.vInt 3), ("title", Value.vStr "")],
   c8_normalization_amended.2 c9_db spec_adapter init_target "chats" (Or.inl rfl)
     (AdapterOp.upsertChat [("id", Value.vInt 1)]) (by decide)⟩

/-- C8 counterexample to the claim as stated: a legacy metadata value equal
to the empty string reaches the set_metadata adapter write unchanged during
the migration run, because _get_metadata does not apply the normalization. -/
theorem c8_empty_string_reaches_write :
    AdapterOp.setMetadata (Value.vStr "api_hash") (Value.vStr "") ∈ (migration_run c8_db).ops
    ∧ ¬ op_clean (AdapterOp.setMetadata (Value.vStr "api_hash") (Value.vStr "")) := by
  constructor
  · decide
  · intro h
    exact h.2 rfl

end TelegramArchive
